import Mathlib

/-!
Verification of the SDK validation engine of `community-scripts`
(`src/validate/base.ts` together with the data model of
`src/type/deployment.ts`).

The TypeScript enums `HashType` and `DepType` are string-valued and all
comparisons in `validateSDKScript` are JavaScript string / number
comparisons on the runtime values, so hash types, dep types and hex
strings are embedded as `String`.  Optional / nullable runtime values
(`deploymentInfo.dataHash == null`, the truthiness guards on `cellDeps`
and `outPoint`) are embedded as `Option`.  JavaScript's `x || d` on
strings (empty string is falsy) and its unary `+` string-to-number
coercion (restricted to the decimal / `0x`-hex forms that hex-number
strings take, with `none` playing the role of `NaN`) are modelled
explicitly below.
-/

/-- The `network` union type `'mainnet' | 'testnet'`. -/
inductive Network where
  | mainnet : Network
  | testnet : Network
deriving DecidableEq, Repr

/-- String interpolation of a network name, as in the template literals of
`validateSDKScript`. -/
def Network.str : Network → String
  | .mainnet => "mainnet"
  | .testnet => "testnet"

/-- `interface OutPoint` from `src/type/deployment.ts`: `txHash` and `index`
are hex strings (`HexString` / `HexNumber` are aliases of `string`). -/
structure OutPoint where
  txHash : String
  index : String
deriving DecidableEq, Repr

/-- `interface CellDep` from `src/type/deployment.ts`.  `outPoint` is
`Option` because `validateSDKScript` explicitly guards
`!expected.outPoint || !actual.outPoint` against absent out-points at
runtime.  `depType` is the string value of the `DepType` enum
(`"code"` or `"dep_group"`). -/
structure CellDep where
  depType : String
  outPoint : Option OutPoint
deriving DecidableEq, Repr

/-- `interface ScriptInfo` from `src/type/deployment.ts`, the SDK-reported
script descriptor.  `hashType` is the string value of the `HashType` enum
(`"data" | "data1" | "data2" | "type"`); `cellDeps` is `Option` because
`validateSDKScript` guards its truthiness (`if (sdkScriptInfo.cellDeps &&
expectedScript.cellDeps)`). -/
structure ScriptInfo where
  codeHash : String
  hashType : String
  cellDeps : Option (List CellDep)
deriving DecidableEq, Repr

/-- `interface DeploymentInfo` from `src/type/deployment.ts`.  `dataHash` and
`typeHash` are `Option` because `validateSDKScript` checks them against
`null`; `cellDeps` is `Option` for the same truthiness guard as in
`ScriptInfo`.  The optional `typeId` field is never read by
`validateSDKScript` (`// todo validate type-id info if applicable`) and is
omitted. -/
structure DeploymentInfo where
  dataHash : Option String
  typeHash : Option String
  cellDeps : Option (List CellDep)
deriving DecidableEq, Repr

/-- `interface ScriptDeployment` from `src/type/deployment.ts`.  The metadata
fields `description`, `sourceUrl` and `scriptType` are never read by
`validateSDKScript` and are omitted. -/
structure ScriptDeployment where
  name : String
  mainnet : Option DeploymentInfo
  testnet : Option DeploymentInfo
deriving DecidableEq, Repr

/-- `interface ValidationResult` from `src/validate/base.ts`. -/
structure ValidationResult where
  scriptName : String
  isValid : Bool
  errors : List String
  warnings : List String
  network : Network
deriving DecidableEq, Repr

/-- JavaScript `s || d` for strings: the empty string is the only falsy
string. -/
def jsOr (s d : String) : String :=
  if s = "" then d else s

/-- JavaScript `x || d` for a nullable string: `null`/`undefined` and the
empty string fall through to the default. -/
def jsOrOpt (s : Option String) (d : String) : String :=
  match s with
  | none => d
  | some v => jsOr v d

/-- Value of a decimal digit character, `none` otherwise. -/
def decDigit (c : Char) : Option Nat :=
  if c.isDigit then some (c.toNat - 48) else none

/-- Value of a hexadecimal digit character, `none` otherwise. -/
def hexDigit (c : Char) : Option Nat :=
  if c.isDigit then some (c.toNat - 48)
  else if 97 ≤ c.toNat ∧ c.toNat ≤ 102 then some (c.toNat - 87)
  else if 65 ≤ c.toNat ∧ c.toNat ≤ 70 then some (c.toNat - 55)
  else none

/-- Accumulate digits in the given base; any non-digit character makes the
whole parse fail (JavaScript `NaN`, modelled as `none`). -/
def parseDigits (base : Nat) (digit : Char → Option Nat) :
    List Char → Nat → Option Nat
  | [], acc => some acc
  | c :: cs, acc =>
    match digit c with
    | some d => parseDigits base digit cs (acc * base + d)
    | none => none

/-- JavaScript unary `+` string-to-number coercion, restricted to the
non-negative decimal and `0x`/`0X` hexadecimal integer literals that
hex-number strings take: the empty string coerces to `0`, a string of
decimal digits to its decimal value, `0x` followed by hex digits to its
hexadecimal value, and everything else to `NaN` (modelled as `none`). -/
def jsToNumber (s : String) : Option Nat :=
  match s.data with
  | [] => some 0
  | '0' :: 'x' :: rest =>
    if rest = [] then none else parseDigits 16 hexDigit rest 0
  | '0' :: 'X' :: rest =>
    if rest = [] then none else parseDigits 16 hexDigit rest 0
  | cs => parseDigits 10 decDigit cs 0

/-- JavaScript `===` on the coerced numbers: `NaN` is equal to nothing,
including itself. -/
def jsNumEq (a b : Option Nat) : Bool :=
  match a, b with
  | some x, some y => x == y
  | _, _ => false

/-- Template-literal rendering `${+x}` of a coerced number. -/
def jsNumStr (a : Option Nat) : String :=
  match a with
  | none => "NaN"
  | some n => toString n

/-- JavaScript `s.toLowerCase()` restricted to ASCII (hex strings are
ASCII); written as a character map so that it evaluates in the kernel. -/
def strToLower (s : String) : String :=
  String.mk (s.data.map Char.toLower)

/-- `result.isValid = false; result.errors.push(e)` as one step. -/
def pushError (r : ValidationResult) (e : String) : ValidationResult :=
  { r with isValid := false, errors := r.errors ++ [e] }

/-- Template literal of line 62 of `src/validate/base.ts`. -/
def notFoundMsg (scriptName : String) : String :=
  "Script \x27" ++ scriptName ++ "\x27 not found in deployments"

/-- Template literal of line 71. -/
def noNetworkMsg (network : Network) (scriptName : String) : String :=
  "No " ++ network.str ++ " configuration found for script \x27" ++ scriptName ++ "\x27"

/-- Template literal of line 80. -/
def missingHashMsg (network : Network) (scriptName : String) : String :=
  "Missing required hash fields in " ++ network.str ++ " configuration for script \x27"
    ++ scriptName ++ "\x27"

/-- Template literal of line 104. -/
def codeHashMismatchMsg (expected got : String) : String :=
  "CodeHash mismatch: expected " ++ expected ++ ", got " ++ got

/-- Template literal of line 112. -/
def hashTypeMismatchMsg (expected got : String) : String :=
  "HashType mismatch: expected " ++ expected ++ ", got " ++ got

/-- Template literal of line 121. -/
def cellDepsCountMsg (expected got : Nat) : String :=
  "CellDeps count mismatch: expected " ++ toString expected ++ ", got " ++ toString got

/-- Template literal of line 130. -/
def missingOutPointMsg (i : Nat) : String :=
  "CellDep " ++ toString i ++ " is missing outPoint"

/-- Template literal of line 140. -/
def txHashMismatchMsg (i : Nat) (expected got : String) : String :=
  "CellDep " ++ toString i ++ " txHash mismatch: expected " ++ expected ++ ", got " ++ got

/-- Template literal of line 150; `${+x}` renders the coerced number. -/
def indexMismatchMsg (i : Nat) (expected got : String) : String :=
  "CellDep " ++ toString i ++ " index mismatch: expected "
    ++ jsNumStr (jsToNumber expected) ++ ", got " ++ jsNumStr (jsToNumber got)

/-- The ternary of lines 66–67 selecting `deployment.mainnet` or
`deployment.testnet`. -/
def networkDeploymentInfo (deployment : ScriptDeployment) :
    Network → Option DeploymentInfo
  | .mainnet => deployment.mainnet
  | .testnet => deployment.testnet

/-- The expected script built at lines 85–96 of `src/validate/base.ts`:
the type-hash variant when the descriptor claims `hashType === "type"`,
otherwise the data-hash variant with the descriptor's own claimed hash
type; `cellDeps` is the deployment's list in both branches. -/
def expectedScriptOf (sdkScriptInfo : ScriptInfo) (deploymentInfo : DeploymentInfo) :
    ScriptInfo :=
  if sdkScriptInfo.hashType = "type" then
    { codeHash := jsOrOpt deploymentInfo.typeHash ""
      hashType := "type"
      cellDeps := deploymentInfo.cellDeps }
  else
    { codeHash := jsOrOpt deploymentInfo.dataHash ""
      hashType := sdkScriptInfo.hashType
      cellDeps := deploymentInfo.cellDeps }

/-- Loop body of the positional cellDeps comparison (lines 125–152): missing
out-point short-circuits the index (`continue`), otherwise case-insensitive
`txHash` comparison and numeric `index` comparison each push one error. -/
def cellDepStep (r : ValidationResult) (i : Nat) (expected actual : CellDep) :
    ValidationResult :=
  match expected.outPoint, actual.outPoint with
  | none, _ => pushError r (missingOutPointMsg i)
  | some _, none => pushError r (missingOutPointMsg i)
  | some expectedOut, some actualOut =>
    let r :=
      if strToLower (jsOr actualOut.txHash "") ≠ strToLower (jsOr expectedOut.txHash "") then
        pushError r (txHashMismatchMsg i expectedOut.txHash actualOut.txHash)
      else r
    if ¬ jsNumEq (jsToNumber (jsOr actualOut.index "0"))
        (jsToNumber (jsOr expectedOut.index "0")) then
      pushError r (indexMismatchMsg i expectedOut.index actualOut.index)
    else r

/-- The `for (let i = 0; ...)` loop of lines 124–153, walking the two
equal-length lists in lockstep with the running index. -/
def cellDepsLoop (r : ValidationResult) (i : Nat) :
    List CellDep → List CellDep → ValidationResult
  | [], _ => r
  | _ :: _, [] => r
  | expected :: expectedRest, actual :: actualRest =>
    cellDepsLoop (cellDepStep r i expected actual) (i + 1) expectedRest actualRest

/-- `private validateSDKScript(scriptName, network, sdkScriptInfo)` of
`src/validate/base.ts`, lines 46–160.  `deployments` stands for the
`Map` keyed by deployment name that `loadDeployments` builds. -/
def validateSDKScript (deployments : List ScriptDeployment)
    (scriptName : String) (network : Network) (sdkScriptInfo : ScriptInfo) :
    ValidationResult :=
  let result : ValidationResult :=
    { isValid := true, errors := [], warnings := [], scriptName, network }
  match deployments.find? (fun d => d.name == scriptName) with
  | none => pushError result (notFoundMsg scriptName)
  | some deployment =>
    match networkDeploymentInfo deployment network with
    | none => pushError result (noNetworkMsg network scriptName)
    | some deploymentInfo =>
      if deploymentInfo.dataHash = none ∨ deploymentInfo.typeHash = none then
        pushError result (missingHashMsg network scriptName)
      else
        let expectedScript := expectedScriptOf sdkScriptInfo deploymentInfo
        let sdkCodeHash := jsOr sdkScriptInfo.codeHash ""
        let expectedCodeHash := jsOr expectedScript.codeHash ""
        let result :=
          if strToLower sdkCodeHash ≠ strToLower expectedCodeHash then
            pushError result (codeHashMismatchMsg expectedCodeHash sdkCodeHash)
          else result
        let result :=
          if sdkScriptInfo.hashType ≠ expectedScript.hashType then
            pushError result (hashTypeMismatchMsg expectedScript.hashType sdkScriptInfo.hashType)
          else result
        match sdkScriptInfo.cellDeps, expectedScript.cellDeps with
        | some sdkDeps, some expectedDeps =>
          if sdkDeps.length ≠ expectedDeps.length then
            pushError result (cellDepsCountMsg expectedDeps.length sdkDeps.length)
          else
            cellDepsLoop result 0 expectedDeps sdkDeps
        | _, _ => result

/-! ### Pure characterizations of the error lists

Each `…Block` function computes the list of error messages a phase of
`validateSDKScript` appends; the lemmas below prove that the imperative
(state-passing) definitions above append exactly these lists. -/

/-- Errors appended by the codeHash check (lines 98–106). -/
def codeHashBlock (expectedCodeHash sdkCodeHash : String) : List String :=
  if strToLower sdkCodeHash ≠ strToLower expectedCodeHash then
    [codeHashMismatchMsg expectedCodeHash sdkCodeHash]
  else []

/-- Errors appended by the hashType check (lines 108–114). -/
def hashTypeBlock (expectedHashType sdkHashType : String) : List String :=
  if sdkHashType ≠ expectedHashType then
    [hashTypeMismatchMsg expectedHashType sdkHashType]
  else []

/-- Errors appended for one index of the positional cellDeps comparison
(lines 125–152). -/
def cellDepPairBlock (i : Nat) (expected actual : CellDep) : List String :=
  match expected.outPoint, actual.outPoint with
  | none, _ => [missingOutPointMsg i]
  | some _, none => [missingOutPointMsg i]
  | some expectedOut, some actualOut =>
    (if strToLower (jsOr actualOut.txHash "") ≠ strToLower (jsOr expectedOut.txHash "") then
      [txHashMismatchMsg i expectedOut.txHash actualOut.txHash]
    else []) ++
    (if ¬ jsNumEq (jsToNumber (jsOr actualOut.index "0"))
        (jsToNumber (jsOr expectedOut.index "0")) then
      [indexMismatchMsg i expectedOut.index actualOut.index]
    else [])

/-- Errors appended by the whole positional loop, starting at index `i`. -/
def cellDepsBlock (i : Nat) : List CellDep → List CellDep → List String
  | [], _ => []
  | _ :: _, [] => []
  | expected :: expectedRest, actual :: actualRest =>
    cellDepPairBlock i expected actual ++ cellDepsBlock (i + 1) expectedRest actualRest

/-- Errors appended by the cellDeps phase (lines 116–155): nothing when either
list is absent, one count-mismatch error when the lengths differ, the
positional errors otherwise. -/
def cellDepsTop (sdkDeps expectedDeps : Option (List CellDep)) : List String :=
  match sdkDeps, expectedDeps with
  | some sdkList, some expectedList =>
    if sdkList.length ≠ expectedList.length then
      [cellDepsCountMsg expectedList.length sdkList.length]
    else cellDepsBlock 0 expectedList sdkList
  | _, _ => []

/-- All errors of the main comparison phase (after the three early returns). -/
def mainErrors (sdkScriptInfo : ScriptInfo) (deploymentInfo : DeploymentInfo) :
    List String :=
  let expectedScript := expectedScriptOf sdkScriptInfo deploymentInfo
  codeHashBlock (jsOr expectedScript.codeHash "") (jsOr sdkScriptInfo.codeHash "")
    ++ hashTypeBlock expectedScript.hashType sdkScriptInfo.hashType
    ++ cellDepsTop sdkScriptInfo.cellDeps expectedScript.cellDeps

theorem isEmpty_append_eq (l m : List String) :
    (l ++ m).isEmpty = (l.isEmpty && m.isEmpty) := by
  cases l <;> simp [List.isEmpty]

theorem cellDepStep_eq (r : ValidationResult) (i : Nat) (expected actual : CellDep) :
    cellDepStep r i expected actual =
      { r with isValid := r.isValid && (cellDepPairBlock i expected actual).isEmpty,
               errors := r.errors ++ cellDepPairBlock i expected actual } := by
  rcases expected with ⟨edt, eo⟩
  rcases actual with ⟨adt, ao⟩
  rcases eo with _ | eo <;> rcases ao with _ | ao <;>
    simp [cellDepStep, cellDepPairBlock, pushError] <;>
    split <;> split <;> simp_all [pushError]

theorem cellDepsLoop_eq (expectedList : List CellDep) :
    ∀ (actualList : List CellDep) (r : ValidationResult) (i : Nat),
    cellDepsLoop r i expectedList actualList =
      { r with isValid := r.isValid && (cellDepsBlock i expectedList actualList).isEmpty,
               errors := r.errors ++ cellDepsBlock i expectedList actualList } := by
  induction expectedList with
  | nil => intro actualList r i; cases actualList <;> simp [cellDepsLoop, cellDepsBlock]
  | cons e es ih =>
    intro actualList r i
    cases actualList with
    | nil => simp [cellDepsLoop, cellDepsBlock]
    | cons a as =>
      simp only [cellDepsLoop, cellDepsBlock, ih, cellDepStep_eq]
      simp [Bool.and_assoc, isEmpty_append_eq]

theorem expectedScriptOf_cellDeps (s : ScriptInfo) (d : DeploymentInfo) :
    (expectedScriptOf s d).cellDeps = d.cellDeps := by
  unfold expectedScriptOf; split <;> rfl

theorem expectedScriptOf_hashType (s : ScriptInfo) (d : DeploymentInfo) :
    (expectedScriptOf s d).hashType = s.hashType := by
  unfold expectedScriptOf; split <;> simp_all

/-- After the three early returns, `validateSDKScript` returns exactly the
accumulated `mainErrors` with `isValid` true iff that list is empty. -/
theorem validateSDKScript_main (deployments : List ScriptDeployment)
    (scriptName : String) (network : Network) (sdkScriptInfo : ScriptInfo)
    (deployment : ScriptDeployment) (deploymentInfo : DeploymentInfo)
    (hfind : deployments.find? (fun d => d.name == scriptName) = some deployment)
    (hinfo : networkDeploymentInfo deployment network = some deploymentInfo)
    (hdata : deploymentInfo.dataHash ≠ none)
    (htype : deploymentInfo.typeHash ≠ none) :
    validateSDKScript deployments scriptName network sdkScriptInfo =
      { scriptName := scriptName, network := network, warnings := [],
        errors := mainErrors sdkScriptInfo deploymentInfo,
        isValid := (mainErrors sdkScriptInfo deploymentInfo).isEmpty } := by
  have hht : ¬ (sdkScriptInfo.hashType ≠ (expectedScriptOf sdkScriptInfo deploymentInfo).hashType) := by
    simp [expectedScriptOf_hashType]
  simp only [validateSDKScript, hfind, hinfo]
  rw [if_neg (by simp [hdata, htype])]
  simp only [mainErrors, hashTypeBlock, codeHashBlock, expectedScriptOf_cellDeps]
  rw [if_neg hht]
  by_cases hch : strToLower (jsOr sdkScriptInfo.codeHash "") ≠
      strToLower (jsOr (expectedScriptOf sdkScriptInfo deploymentInfo).codeHash "")
  · rw [if_pos hch, if_pos hch]
    rcases hsd : sdkScriptInfo.cellDeps with _ | sdkDeps <;>
      rcases hed : deploymentInfo.cellDeps with _ | expectedDeps <;>
      simp only [cellDepsTop, pushError]
    · simp [expectedScriptOf_hashType]
    · simp [expectedScriptOf_hashType]
    · simp [expectedScriptOf_hashType]
    · by_cases hlen : sdkDeps.length ≠ expectedDeps.length
      · rw [if_pos hlen, if_pos hlen]; simp [pushError, expectedScriptOf_hashType]
      · rw [if_neg hlen, if_neg hlen]
        rw [cellDepsLoop_eq]
        simp [isEmpty_append_eq, expectedScriptOf_hashType]
  · rw [if_neg hch, if_neg hch]
    rcases hsd : sdkScriptInfo.cellDeps with _ | sdkDeps <;>
      rcases hed : deploymentInfo.cellDeps with _ | expectedDeps <;>
      simp only [cellDepsTop, pushError]
    · simp [expectedScriptOf_hashType]
    · simp [expectedScriptOf_hashType]
    · simp [expectedScriptOf_hashType]
    · by_cases hlen : sdkDeps.length ≠ expectedDeps.length
      · rw [if_pos hlen, if_pos hlen]; simp [pushError, expectedScriptOf_hashType]
      · rw [if_neg hlen, if_neg hlen]
        rw [cellDepsLoop_eq]
        simp [isEmpty_append_eq, expectedScriptOf_hashType]

/-! ### Early-return characterizations -/

theorem validate_notFound_aux (deployments : List ScriptDeployment)
    (scriptName : String) (network : Network) (sdkScriptInfo : ScriptInfo)
    (hfind : deployments.find? (fun d => d.name == scriptName) = none) :
    validateSDKScript deployments scriptName network sdkScriptInfo =
      { scriptName := scriptName, network := network, warnings := [],
        errors := [notFoundMsg scriptName], isValid := false } := by
  simp [validateSDKScript, hfind, pushError]

theorem validate_noNetwork_aux (deployments : List ScriptDeployment)
    (scriptName : String) (network : Network) (sdkScriptInfo : ScriptInfo)
    (deployment : ScriptDeployment)
    (hfind : deployments.find? (fun d => d.name == scriptName) = some deployment)
    (hinfo : networkDeploymentInfo deployment network = none) :
    validateSDKScript deployments scriptName network sdkScriptInfo =
      { scriptName := scriptName, network := network, warnings := [],
        errors := [noNetworkMsg network scriptName], isValid := false } := by
  simp [validateSDKScript, hfind, hinfo, pushError]

theorem validate_missingHash_aux (deployments : List ScriptDeployment)
    (scriptName : String) (network : Network) (sdkScriptInfo : ScriptInfo)
    (deployment : ScriptDeployment) (deploymentInfo : DeploymentInfo)
    (hfind : deployments.find? (fun d => d.name == scriptName) = some deployment)
    (hinfo : networkDeploymentInfo deployment network = some deploymentInfo)
    (hmiss : deploymentInfo.dataHash = none ∨ deploymentInfo.typeHash = none) :
    validateSDKScript deployments scriptName network sdkScriptInfo =
      { scriptName := scriptName, network := network, warnings := [],
        errors := [missingHashMsg network scriptName], isValid := false } := by
  simp [validateSDKScript, hfind, hinfo, hmiss, pushError]

/-- C7: a descriptor whose scriptName is not a key of the deployments mapping
yields `isValid = false` with the single not-found error and no further
checks. -/
theorem validate_unknown_script (deployments : List ScriptDeployment)
    (scriptName : String) (network : Network) (sdkScriptInfo : ScriptInfo)
    (hfind : deployments.find? (fun d => d.name == scriptName) = none) :
    validateSDKScript deployments scriptName network sdkScriptInfo =
      { scriptName := scriptName, network := network, warnings := [],
        errors := ["Script \x27" ++ scriptName ++ "\x27 not found in deployments"],
        isValid := false } :=
  validate_notFound_aux deployments scriptName network sdkScriptInfo hfind

theorem validate_unknown_script_witness :
    ([] : List ScriptDeployment).find? (fun d => d.name == "foo") = none ∧
    validateSDKScript [] "foo" .mainnet ⟨"0xaa", "type", none⟩ =
      { scriptName := "foo", network := .mainnet, warnings := [],
        errors := ["Script \x27foo\x27 not found in deployments"], isValid := false } :=
  ⟨rfl, validate_unknown_script [] "foo" .mainnet ⟨"0xaa", "type", none⟩ rfl⟩

/-- C8: for every input and store, the returned result has `isValid = true`
exactly when its `errors` list is empty. -/
theorem validate_isValid_iff_no_errors (deployments : List ScriptDeployment)
    (scriptName : String) (network : Network) (sdkScriptInfo : ScriptInfo) :
    (validateSDKScript deployments scriptName network sdkScriptInfo).isValid = true ↔
    (validateSDKScript deployments scriptName network sdkScriptInfo).errors = [] := by
  rcases hfind : deployments.find? (fun d => d.name == scriptName) with _ | deployment
  · simp [validateSDKScript, hfind, pushError, notFoundMsg]
  · rcases hinfo : networkDeploymentInfo deployment network with _ | deploymentInfo
    · simp [validateSDKScript, hfind, hinfo, pushError, noNetworkMsg]
    · by_cases hmiss : deploymentInfo.dataHash = none ∨ deploymentInfo.typeHash = none
      · simp [validateSDKScript, hfind, hinfo, hmiss, pushError, missingHashMsg]
      · push_neg at hmiss
        rw [validateSDKScript_main deployments scriptName network sdkScriptInfo
          deployment deploymentInfo hfind hinfo hmiss.1 hmiss.2]
        cases h : mainErrors sdkScriptInfo deploymentInfo <;> simp [List.isEmpty]

/-! ### Distinguishing error messages by their first character -/

def headChar (s : String) : Option Char := s.data.head?

theorem ne_of_headChar {s t : String} (h : headChar s ≠ headChar t) : s ≠ t :=
  fun e => h (congrArg headChar e)

theorem codeHashMismatchMsg_headChar (e a : String) :
    headChar (codeHashMismatchMsg e a) = some 'C' := rfl

theorem hashTypeMismatchMsg_headChar (e a : String) :
    headChar (hashTypeMismatchMsg e a) = some 'H' := rfl

theorem cellDepsCountMsg_headChar (e a : Nat) :
    headChar (cellDepsCountMsg e a) = some 'C' := rfl

theorem missingOutPointMsg_headChar (i : Nat) :
    headChar (missingOutPointMsg i) = some 'C' := rfl

theorem txHashMismatchMsg_headChar (i : Nat) (e a : String) :
    headChar (txHashMismatchMsg i e a) = some 'C' := rfl

theorem indexMismatchMsg_headChar (i : Nat) (e a : String) :
    headChar (indexMismatchMsg i e a) = some 'C' := rfl

theorem missingHashMsg_headChar (n : Network) (s : String) :
    headChar (missingHashMsg n s) = some 'M' := rfl

theorem cellDepPairBlock_headChar (i : Nat) (e a : CellDep) :
    ∀ x ∈ cellDepPairBlock i e a, headChar x = some 'C' := by
  intro x hx
  unfold cellDepPairBlock at hx
  rcases he : e.outPoint with _ | eo <;> rcases ha : a.outPoint with _ | ao <;>
    simp [he, ha] at hx
  · simp [hx, missingOutPointMsg_headChar]
  · simp [hx, missingOutPointMsg_headChar]
  · simp [hx, missingOutPointMsg_headChar]
  · rcases hx with hx | hx
    · rcases hx with ⟨-, hx⟩
      simp [hx, txHashMismatchMsg_headChar]
    · rcases hx with ⟨-, hx⟩
      simp [hx, indexMismatchMsg_headChar]

theorem cellDepsBlock_headChar (es : List CellDep) :
    ∀ (as_ : List CellDep) (i : Nat), ∀ x ∈ cellDepsBlock i es as_, headChar x = some 'C' := by
  induction es with
  | nil => intro as_ i x hx; cases as_ <;> simp [cellDepsBlock] at hx
  | cons e es ih =>
    intro as_ i x hx
    cases as_ with
    | nil => simp [cellDepsBlock] at hx
    | cons a as_ =>
      simp only [cellDepsBlock, List.mem_append] at hx
      rcases hx with hx | hx
      · exact cellDepPairBlock_headChar i e a x hx
      · exact ih as_ (i + 1) x hx

theorem mainErrors_headChar (sdkScriptInfo : ScriptInfo) (deploymentInfo : DeploymentInfo) :
    ∀ x ∈ mainErrors sdkScriptInfo deploymentInfo,
      headChar x = some 'C' ∨ headChar x = some 'H' := by
  intro x hx
  unfold mainErrors codeHashBlock hashTypeBlock cellDepsTop at hx
  simp only [List.mem_append] at hx
  rcases hx with (hx | hx) | hx
  · split at hx <;> simp at hx
    simp [hx, codeHashMismatchMsg_headChar]
  · split at hx <;> simp at hx
    simp [hx, hashTypeMismatchMsg_headChar]
  · rcases hsd : sdkScriptInfo.cellDeps with _ | sdkDeps <;>
      rcases hed : (expectedScriptOf sdkScriptInfo deploymentInfo).cellDeps with _ | expectedDeps <;>
      simp [hsd, hed] at hx
    split at hx
    · exact Or.inl (cellDepsBlock_headChar expectedDeps sdkDeps 0 x hx)
    · simp at hx
      simp [hx, cellDepsCountMsg_headChar]

/-- C2 counterexample: a mainnet entry that supplies the hash field for the
claimed variant (`typeHash` for a descriptor claiming `hashType = "type"`)
but lacks the other variant's `dataHash` still triggers the
missing-required-hash-fields error, refuting the claim that only the
selected variant's hash field is required. -/
theorem validate_missing_fields_counterexample :
    validateSDKScript
      [{ name := "s",
         mainnet := some { dataHash := none, typeHash := some "0xaa", cellDeps := none },
         testnet := none }]
      "s" .mainnet ⟨"0xaa", "type", none⟩ =
      { scriptName := "s", network := .mainnet, warnings := [],
        errors := ["Missing required hash fields in mainnet configuration for script \x27s\x27"],
        isValid := false } := by decide

/-- C2 (amended): the missing-required-hash-fields single-error invalid
result is returned exactly when the network entry's `dataHash` or `typeHash`
is null — both fields are required regardless of which hash-type variant the
descriptor claims; when both are present the missing-fields message never
appears among the errors (and the check never crashes: a result is always
returned). -/
theorem validate_missing_fields_amended (deployments : List ScriptDeployment)
    (scriptName : String) (network : Network) (sdkScriptInfo : ScriptInfo)
    (deployment : ScriptDeployment) (deploymentInfo : DeploymentInfo)
    (hfind : deployments.find? (fun d => d.name == scriptName) = some deployment)
    (hinfo : networkDeploymentInfo deployment network = some deploymentInfo) :
    ((deploymentInfo.dataHash = none ∨ deploymentInfo.typeHash = none) →
      validateSDKScript deployments scriptName network sdkScriptInfo =
        { scriptName := scriptName, network := network, warnings := [],
          errors := [missingHashMsg network scriptName], isValid := false }) ∧
    (deploymentInfo.dataHash ≠ none → deploymentInfo.typeHash ≠ none →
      missingHashMsg network scriptName ∉
        (validateSDKScript deployments scriptName network sdkScriptInfo).errors) := by
  constructor
  · intro hmiss
    exact validate_missingHash_aux deployments scriptName network sdkScriptInfo
      deployment deploymentInfo hfind hinfo hmiss
  · intro hd ht hmem
    rw [validateSDKScript_main deployments scriptName network sdkScriptInfo
      deployment deploymentInfo hfind hinfo hd ht] at hmem
    rcases mainErrors_headChar sdkScriptInfo deploymentInfo _ hmem with h | h <;>
      rw [missingHashMsg_headChar] at h <;> exact absurd h (by decide)

theorem validate_missing_fields_amended_witness :
    validateSDKScript
      [{ name := "s",
         mainnet := some { dataHash := none, typeHash := some "0xaa", cellDeps := none },
         testnet := none }]
      "s" .mainnet ⟨"0xaa", "type", none⟩ =
      { scriptName := "s", network := .mainnet, warnings := [],
        errors := [missingHashMsg .mainnet "s"], isValid := false } :=
  (validate_missing_fields_amended
    [{ name := "s",
       mainnet := some { dataHash := none, typeHash := some "0xaa", cellDeps := none },
       testnet := none }]
    "s" .mainnet ⟨"0xaa", "type", none⟩ _ _ rfl rfl).1 (Or.inl rfl)

/-- C4: when both cellDeps lists are present and their lengths differ, the
cellDeps phase contributes exactly the one count-mismatch error and no
positional per-element comparison happens: the full error list is the
(possible) codeHash error followed by the single count-mismatch message. -/
theorem validate_cellDeps_count_mismatch (deployments : List ScriptDeployment)
    (scriptName : String) (network : Network) (sdkScriptInfo : ScriptInfo)
    (deployment : ScriptDeployment) (deploymentInfo : DeploymentInfo)
    (hfind : deployments.find? (fun d => d.name == scriptName) = some deployment)
    (hinfo : networkDeploymentInfo deployment network = some deploymentInfo)
    (hdata : deploymentInfo.dataHash ≠ none)
    (htype : deploymentInfo.typeHash ≠ none)
    (sdkDeps expectedDeps : List CellDep)
    (hsd : sdkScriptInfo.cellDeps = some sdkDeps)
    (hed : deploymentInfo.cellDeps = some expectedDeps)
    (hlen : sdkDeps.length ≠ expectedDeps.length) :
    (validateSDKScript deployments scriptName network sdkScriptInfo).errors =
      codeHashBlock (jsOr (expectedScriptOf sdkScriptInfo deploymentInfo).codeHash "")
          (jsOr sdkScriptInfo.codeHash "")
        ++ [cellDepsCountMsg expectedDeps.length sdkDeps.length] := by
  rw [validateSDKScript_main deployments scriptName network sdkScriptInfo
    deployment deploymentInfo hfind hinfo hdata htype]
  simp [mainErrors, hashTypeBlock, expectedScriptOf_hashType, expectedScriptOf_cellDeps,
    cellDepsTop, hsd, hed, hlen]

/-- A concrete out-point fixture used by the closed instances below. -/
def opA : OutPoint := { txHash := "0xab", index := "0x0" }

/-- A concrete cell dep fixture. -/
def depA : CellDep := { depType := "code", outPoint := some opA }

/-- A second, different cell dep fixture. -/
def depB : CellDep := { depType := "code", outPoint := some { txHash := "0xcd", index := "0x1" } }

/-- A concrete deployment network entry fixture. -/
def infoA : DeploymentInfo :=
  { dataHash := some "0xdd", typeHash := some "0xee", cellDeps := some [depA] }

/-- A concrete one-deployment store fixture. -/
def storeA : List ScriptDeployment := [{ name := "s", mainnet := some infoA, testnet := none }]

/-- A concrete descriptor reporting two cell deps (store lists one). -/
def descTwoDeps : ScriptInfo := { codeHash := "0xdd", hashType := "data", cellDeps := some [depA, depB] }

theorem validate_cellDeps_count_mismatch_witness :
    (validateSDKScript storeA "s" .mainnet descTwoDeps).errors =
      codeHashBlock (jsOr (expectedScriptOf descTwoDeps infoA).codeHash "")
          (jsOr descTwoDeps.codeHash "")
        ++ [cellDepsCountMsg 1 2] :=
  validate_cellDeps_count_mismatch storeA "s" .mainnet descTwoDeps _ infoA rfl rfl
    (by decide) (by decide) [depA, depB] [depA] rfl rfl (by decide)

/-- C9: when the descriptor's cellDeps or the deployment's cellDeps is
absent, no cellDeps comparison is performed and no cellDeps-related error is
emitted: the errors are exactly the codeHash block, and the result is valid
exactly when that block is empty — so a descriptor reporting no cellDeps can
be valid even when the reference lists cell dependencies. -/
theorem validate_absent_cellDeps_skips (deployments : List ScriptDeployment)
    (scriptName : String) (network : Network) (sdkScriptInfo : ScriptInfo)
    (deployment : ScriptDeployment) (deploymentInfo : DeploymentInfo)
    (hfind : deployments.find? (fun d => d.name == scriptName) = some deployment)
    (hinfo : networkDeploymentInfo deployment network = some deploymentInfo)
    (hdata : deploymentInfo.dataHash ≠ none)
    (htype : deploymentInfo.typeHash ≠ none)
    (habs : sdkScriptInfo.cellDeps = none ∨ deploymentInfo.cellDeps = none) :
    (validateSDKScript deployments scriptName network sdkScriptInfo).errors =
      codeHashBlock (jsOr (expectedScriptOf sdkScriptInfo deploymentInfo).codeHash "")
        (jsOr sdkScriptInfo.codeHash "") ∧
    (validateSDKScript deployments scriptName network sdkScriptInfo).isValid =
      (codeHashBlock (jsOr (expectedScriptOf sdkScriptInfo deploymentInfo).codeHash "")
        (jsOr sdkScriptInfo.codeHash "")).isEmpty := by
  rw [validateSDKScript_main deployments scriptName network sdkScriptInfo
    deployment deploymentInfo hfind hinfo hdata htype]
  rcases habs with habs | habs <;>
    simp [mainErrors, hashTypeBlock, expectedScriptOf_hashType, expectedScriptOf_cellDeps,
      cellDepsTop, habs]

/-- A concrete descriptor reporting no cellDeps list at all. -/
def descNoDeps : ScriptInfo := { codeHash := "0xDD", hashType := "data", cellDeps := none }

theorem validate_absent_cellDeps_skips_witness :
    (validateSDKScript storeA "s" .mainnet descNoDeps).errors = [] ∧
    (validateSDKScript storeA "s" .mainnet descNoDeps).isValid = true := by
  have h := validate_absent_cellDeps_skips storeA "s" .mainnet descNoDeps _ infoA rfl rfl
    (by decide) (by decide) (Or.inl rfl)
  exact ⟨h.1.trans (by decide), h.2.trans (by decide)⟩

/-- C3: for a descriptor whose claimed hashType is not "type", the expected
variant is the data-keyed one carrying the descriptor's own claimed
hashType, so the hashType comparison never fires for data-family
descriptors: the errors are exactly codeHash block ++ cellDeps block,
whatever data-family hash type the reference actually uses. -/
theorem validate_data_family_hashType (deployments : List ScriptDeployment)
    (scriptName : String) (network : Network) (sdkScriptInfo : ScriptInfo)
    (deployment : ScriptDeployment) (deploymentInfo : DeploymentInfo)
    (hfind : deployments.find? (fun d => d.name == scriptName) = some deployment)
    (hinfo : networkDeploymentInfo deployment network = some deploymentInfo)
    (hdata : deploymentInfo.dataHash ≠ none)
    (htype : deploymentInfo.typeHash ≠ none)
    (hnt : sdkScriptInfo.hashType ≠ "type") :
    expectedScriptOf sdkScriptInfo deploymentInfo =
      { codeHash := jsOrOpt deploymentInfo.dataHash ""
        hashType := sdkScriptInfo.hashType
        cellDeps := deploymentInfo.cellDeps } ∧
    (validateSDKScript deployments scriptName network sdkScriptInfo).errors =
      codeHashBlock (jsOr (expectedScriptOf sdkScriptInfo deploymentInfo).codeHash "")
          (jsOr sdkScriptInfo.codeHash "")
        ++ cellDepsTop sdkScriptInfo.cellDeps deploymentInfo.cellDeps := by
  constructor
  · unfold expectedScriptOf
    rw [if_neg hnt]
  · rw [validateSDKScript_main deployments scriptName network sdkScriptInfo
      deployment deploymentInfo hfind hinfo hdata htype]
    simp [mainErrors, hashTypeBlock, expectedScriptOf_hashType, expectedScriptOf_cellDeps]

/-- A concrete descriptor claiming `data1` against a reference whose data
hash is keyed under plain `data`. -/
def descData1 : ScriptInfo := { codeHash := "0xdd", hashType := "data1", cellDeps := none }

theorem validate_data_family_hashType_witness :
    expectedScriptOf descData1 infoA =
      { codeHash := jsOrOpt infoA.dataHash ""
        hashType := descData1.hashType
        cellDeps := infoA.cellDeps } ∧
    (validateSDKScript storeA "s" .mainnet descData1).errors =
      codeHashBlock (jsOr (expectedScriptOf descData1 infoA).codeHash "")
          (jsOr descData1.codeHash "")
        ++ cellDepsTop descData1.cellDeps infoA.cellDeps :=
  validate_data_family_hashType storeA "s" .mainnet descData1 _ infoA rfl rfl
    (by decide) (by decide) (by decide)

/-- C6: codeHash comparison is case-insensitive — when the two code hashes
agree up to ASCII letter case no CodeHash error is emitted and the errors
reduce to the cellDeps block alone — while the hashType check and the
codeHash check are characterized exactly: the hashType block is empty
precisely when the two hashType strings are identical (so any difference,
case included, yields the HashType-mismatch error) and the codeHash block is
empty precisely when the hashes agree up to case. -/
theorem validate_case_sensitivity (deployments : List ScriptDeployment)
    (scriptName : String) (network : Network) (sdkScriptInfo : ScriptInfo)
    (deployment : ScriptDeployment) (deploymentInfo : DeploymentInfo)
    (hfind : deployments.find? (fun d => d.name == scriptName) = some deployment)
    (hinfo : networkDeploymentInfo deployment network = some deploymentInfo)
    (hdata : deploymentInfo.dataHash ≠ none)
    (htype : deploymentInfo.typeHash ≠ none)
    (hci : strToLower (jsOr sdkScriptInfo.codeHash "") =
      strToLower (jsOr (expectedScriptOf sdkScriptInfo deploymentInfo).codeHash "")) :
    (validateSDKScript deployments scriptName network sdkScriptInfo).errors =
      cellDepsTop sdkScriptInfo.cellDeps deploymentInfo.cellDeps ∧
    (∀ e a : String,
      (codeHashBlock e a = [] ↔ strToLower a = strToLower e) ∧
      (hashTypeBlock e a = [] ↔ a = e)) := by
  constructor
  · rw [validateSDKScript_main deployments scriptName network sdkScriptInfo
      deployment deploymentInfo hfind hinfo hdata htype]
    simp [mainErrors, codeHashBlock, hashTypeBlock, hci,
      expectedScriptOf_hashType, expectedScriptOf_cellDeps]
  · intro e a
    constructor
    · unfold codeHashBlock
      split <;> simp_all
    · unfold hashTypeBlock
      split <;> simp_all

/-- A reference entry whose data hash is lowercase. -/
def infoB : DeploymentInfo := { dataHash := some "0xab12", typeHash := some "0xee", cellDeps := none }

/-- A store holding `infoB` under the name `t`. -/
def storeB : List ScriptDeployment := [{ name := "t", mainnet := some infoB, testnet := none }]

/-- A descriptor reporting the same hash in uppercase. -/
def descUpper : ScriptInfo := { codeHash := "0xAB12", hashType := "data", cellDeps := none }

theorem validate_case_sensitivity_witness :
    (validateSDKScript storeB "t" .mainnet descUpper).errors =
      cellDepsTop descUpper.cellDeps infoB.cellDeps ∧
    ((codeHashBlock "0xab12" "0xAB12" = [] ↔ strToLower "0xAB12" = strToLower "0xab12") ∧
     (hashTypeBlock "data" "Data" = [] ↔ "Data" = "data")) := by
  have h := validate_case_sensitivity storeB "t" .mainnet descUpper _ infoB rfl rfl
    (by decide) (by decide) (by decide)
  exact ⟨h.1, ⟨(h.2 "0xab12" "0xAB12").1, (h.2 "data" "Data").2⟩⟩

/-- C1 counterexample: with equal-length cellDeps lists, a depType mismatch
at index 0 (`"code"` vs `"dep_group"`) whose txHash and index match produces
no error at all and the descriptor is reported valid: depType is not among
the fields the positional comparison checks. -/
theorem cellDeps_depType_not_compared_counterexample :
    ("code" : String) ≠ "dep_group" ∧
    validateSDKScript
      [{ name := "s",
         mainnet := some { dataHash := some "0xdd", typeHash := some "0xee",
                           cellDeps := some [{ depType := "dep_group", outPoint := some opA }] },
         testnet := none }]
      "s" .mainnet ⟨"0xdd", "data", some [{ depType := "code", outPoint := some opA }]⟩ =
      { scriptName := "s", network := .mainnet, warnings := [],
        errors := [], isValid := true } :=
  ⟨by decide, by decide⟩

/-- C1 (amended): in the equal-length positional comparison only two of the
three fields are checked at each index — `outPoint.txHash` case-insensitively
and `outPoint.index` numerically — each mismatch appending one distinct error
naming that index and that field; `depType` is never compared, so the loop
body is invariant under changing either side's depType and a depType-only
mismatch produces no error. -/
theorem cellDep_fields_checked (r : ValidationResult) (i : Nat)
    (expected actual : CellDep) (expectedOut actualOut : OutPoint)
    (he : expected.outPoint = some expectedOut) (ha : actual.outPoint = some actualOut) :
    (cellDepStep r i expected actual).errors = r.errors
      ++ (if strToLower (jsOr actualOut.txHash "") ≠ strToLower (jsOr expectedOut.txHash "") then
            [txHashMismatchMsg i expectedOut.txHash actualOut.txHash] else [])
      ++ (if ¬ jsNumEq (jsToNumber (jsOr actualOut.index "0"))
              (jsToNumber (jsOr expectedOut.index "0")) then
            [indexMismatchMsg i expectedOut.index actualOut.index] else []) ∧
    (∀ dt1 dt2 : String,
      cellDepStep r i { expected with depType := dt1 } { actual with depType := dt2 } =
        cellDepStep r i expected actual) := by
  constructor
  · rw [cellDepStep_eq]
    simp [cellDepPairBlock, he, ha, List.append_assoc]
  · intro dt1 dt2
    rw [cellDepStep_eq, cellDepStep_eq]
    simp [cellDepPairBlock]

/-- An empty running result fixture. -/
def resultR0 : ValidationResult :=
  { scriptName := "s", network := .mainnet, warnings := [], errors := [], isValid := true }

theorem cellDep_fields_checked_witness :
    (cellDepStep resultR0 0 depA depB).errors = resultR0.errors
      ++ (if strToLower (jsOr "0xcd" "") ≠ strToLower (jsOr "0xab" "") then
            [txHashMismatchMsg 0 "0xab" "0xcd"] else [])
      ++ (if ¬ jsNumEq (jsToNumber (jsOr "0x1" "0")) (jsToNumber (jsOr "0x0" "0")) then
            [indexMismatchMsg 0 "0x0" "0x1"] else []) ∧
    cellDepStep resultR0 0 { depA with depType := "dep_group" } { depB with depType := "code" } =
      cellDepStep resultR0 0 depA depB := by
  have h := cellDep_fields_checked resultR0 0 depA depB opA
    { txHash := "0xcd", index := "0x1" } rfl rfl
  exact ⟨h.1, h.2 "dep_group" "code"⟩

/-- C5: the index comparison is numeric — whenever both index strings coerce
to the same numeric value, no index-mismatch error is appended for that
pair (only the txHash check can contribute), regardless of the strings
differing in form. -/
theorem cellDep_index_numeric (r : ValidationResult) (i : Nat)
    (expected actual : CellDep) (expectedOut actualOut : OutPoint)
    (he : expected.outPoint = some expectedOut) (ha : actual.outPoint = some actualOut)
    (v : Nat)
    (hev : jsToNumber (jsOr expectedOut.index "0") = some v)
    (hav : jsToNumber (jsOr actualOut.index "0") = some v) :
    (cellDepStep r i expected actual).errors = r.errors
      ++ (if strToLower (jsOr actualOut.txHash "") ≠ strToLower (jsOr expectedOut.txHash "") then
            [txHashMismatchMsg i expectedOut.txHash actualOut.txHash] else []) := by
  rw [cellDepStep_eq]
  simp [cellDepPairBlock, he, ha, hev, hav, jsNumEq]

/-- A cell dep whose index is the decimal string ten. -/
def depTen : CellDep := { depType := "code", outPoint := some { txHash := "0xab", index := "10" } }

/-- A cell dep whose index is the hexadecimal string ten. -/
def depHexTen : CellDep := { depType := "code", outPoint := some { txHash := "0xab", index := "0xa" } }

theorem cellDep_index_numeric_witness :
    jsToNumber (jsOr "10" "0") = some 10 ∧
    jsToNumber (jsOr "0xa" "0") = some 10 ∧
    (cellDepStep resultR0 0 depTen depHexTen).errors = resultR0.errors
      ++ (if strToLower (jsOr "0xab" "") ≠ strToLower (jsOr "0xab" "") then
            [txHashMismatchMsg 0 "0xab" "0xab"] else []) :=
  ⟨by decide, by decide,
    cellDep_index_numeric resultR0 0 depTen depHexTen
      { txHash := "0xab", index := "10" } { txHash := "0xab", index := "0xa" }
      rfl rfl 10 (by decide) (by decide)⟩

theorem cellDepPairBlock_missing (i : Nat) (expected actual : CellDep)
    (hmiss : expected.outPoint = none ∨ actual.outPoint = none) :
    cellDepPairBlock i expected actual = [missingOutPointMsg i] := by
  rcases hmiss with h | h
  · simp [cellDepPairBlock, h]
  · rcases he : expected.outPoint with _ | eo <;> simp [cellDepPairBlock, he, h]

theorem cellDepsBlock_append (pre : List CellDep) :
    ∀ (preA : List CellDep), pre.length = preA.length →
    ∀ (suf sufA : List CellDep) (j : Nat),
    cellDepsBlock j (pre ++ suf) (preA ++ sufA) =
      cellDepsBlock j pre preA ++ cellDepsBlock (j + pre.length) suf sufA := by
  induction pre with
  | nil =>
    intro preA hlen suf sufA j
    cases preA with
    | nil => simp [cellDepsBlock]
    | cons _ _ => simp at hlen
  | cons p ps ih =>
    intro preA hlen suf sufA j
    cases preA with
    | nil => simp at hlen
    | cons q qs =>
      simp only [List.length_cons, Nat.succ.injEq] at hlen
      simp only [List.cons_append, cellDepsBlock, List.length_cons, List.append_eq]
      rw [ih qs hlen suf sufA (j + 1), List.append_assoc]
      have hidx : j + 1 + ps.length = j + (ps.length + 1) := by omega
      rw [hidx]

/-- C10: a pair with a missing outPoint contributes exactly the single
"CellDep i is missing outPoint" error for its index — the txHash and index
field comparisons for that index are skipped (`continue`) — and the
positional loop carries on with the remaining indices on both sides. -/
theorem cellDep_missing_outPoint (i : Nat) (expected actual : CellDep)
    (hmiss : expected.outPoint = none ∨ actual.outPoint = none) :
    (∀ r : ValidationResult,
      (cellDepStep r i expected actual).errors = r.errors ++ [missingOutPointMsg i]) ∧
    (∀ (pre preA suf sufA : List CellDep), pre.length = preA.length →
      cellDepsBlock 0 (pre ++ expected :: suf) (preA ++ actual :: sufA) =
        cellDepsBlock 0 pre preA
          ++ missingOutPointMsg pre.length :: cellDepsBlock (pre.length + 1) suf sufA) := by
  constructor
  · intro r
    rw [cellDepStep_eq]
    simp [cellDepPairBlock_missing i expected actual hmiss]
  · intro pre preA suf sufA hlen
    rw [cellDepsBlock_append pre preA hlen (expected :: suf) (actual :: sufA) 0]
    simp [cellDepsBlock, cellDepPairBlock_missing _ _ _ hmiss]

/-- A cell dep with no outPoint at all. -/
def depNoOut : CellDep := { depType := "code", outPoint := none }

theorem cellDep_missing_outPoint_witness :
    (cellDepStep resultR0 1 depNoOut depB).errors = resultR0.errors ++ [missingOutPointMsg 1] ∧
    cellDepsBlock 0 ([depA] ++ depNoOut :: [depA]) ([depA] ++ depB :: [depA]) =
      cellDepsBlock 0 [depA] [depA] ++ missingOutPointMsg 1 :: cellDepsBlock 2 [depA] [depA] := by
  have h := cellDep_missing_outPoint 1 depNoOut depB (Or.inl rfl)
  exact ⟨h.1 resultR0, h.2 [depA] [depA] [depA] [depA] rfl⟩
